import Mathlib

/-!
Verification development for the per-frame multi-signal analysis pipeline of
the interview-monitoring backend (`backend/app/api/face_detection.py`).

Python floats are modelled as rationals (`ℚ`); the mutable per-frame
attributes of the `EnhancedFaceDetector` object are modelled as explicit
state records threaded through step functions.
-/

namespace FaceMonitor

/-! ### Presence stabilizer (temporal smoothing hysteresis)

Embeds step 2 of `EnhancedFaceDetector.process_frame` together with the
attribute initialisation in `__init__`.
-/

/-- The hysteresis attributes `with_face_frames`, `no_face_frames` and
`state_face_detected` of `EnhancedFaceDetector`. -/
structure PresenceState where
  with_face_frames : Nat
  no_face_frames : Nat
  state_face_detected : Bool
deriving DecidableEq, Repr

/-- Constant `self.flip_up = 2` (consecutive frames with a face needed to
switch the stable state to present). -/
def flip_up : Nat := 2

/-- Constant `self.flip_down = 5` (consecutive frames without a face needed
to switch the stable state to absent). -/
def flip_down : Nat := 5

/-- Attribute values set in `EnhancedFaceDetector.__init__`: both counters 0,
stable state absent. -/
def initPresence : PresenceState :=
  { with_face_frames := 0, no_face_frames := 0, state_face_detected := false }

/-- Step 2 of `process_frame` ("temporal smoothing state machine"): on a frame
with `confidence > 0.0` the present-counter is incremented and the
absent-counter reset, and the stable state flips to `true` once the
present-counter reaches `flip_up`; otherwise symmetrically with `flip_down`. -/
def stepPresence (s : PresenceState) (confidence : ℚ) : PresenceState :=
  if 0 < confidence then
    { with_face_frames := s.with_face_frames + 1
      no_face_frames := 0
      state_face_detected :=
        if s.state_face_detected = false ∧ flip_up ≤ s.with_face_frames + 1 then true
        else s.state_face_detected }
  else
    { with_face_frames := 0
      no_face_frames := s.no_face_frames + 1
      state_face_detected :=
        if s.state_face_detected = true ∧ flip_down ≤ s.no_face_frames + 1 then false
        else s.state_face_detected }

/-- Result of feeding a whole sequence of per-frame confidences to the
stabilizer, starting from the `__init__` state. -/
def runPresence (l : List ℚ) : PresenceState :=
  l.foldl stepPresence initPresence

/-- Length of the maximal suffix of `l` all of whose elements satisfy `p`
(the "current run" of frames satisfying `p`). -/
def trailCount (p : ℚ → Bool) (l : List ℚ) : Nat :=
  l.foldl (fun n c => if p c then n + 1 else 0) 0

theorem runPresence_append (l : List ℚ) (c : ℚ) :
    runPresence (l ++ [c]) = stepPresence (runPresence l) c := by
  simp [runPresence, List.foldl_append]

theorem trailCount_append (p : ℚ → Bool) (l : List ℚ) (c : ℚ) :
    trailCount p (l ++ [c]) = if p c then trailCount p l + 1 else 0 := by
  simp [trailCount, List.foldl_append]

theorem trailCount_congr {p q : ℚ → Bool} (l : List ℚ) (h : ∀ x ∈ l, p x = q x) :
    trailCount p l = trailCount q l := by
  induction l using List.reverseRecOn with
  | nil => rfl
  | append_singleton l c ih =>
    rw [trailCount_append, trailCount_append, h c (by simp),
      ih (fun x hx => h x (by simp [hx]))]

/-- The two hysteresis counters track the trailing runs of positive
respectively non-positive confidences. -/
theorem presence_counters (l : List ℚ) :
    (runPresence l).with_face_frames = trailCount (fun c => decide (0 < c)) l ∧
    (runPresence l).no_face_frames = trailCount (fun c => !decide (0 < c)) l := by
  induction l using List.reverseRecOn with
  | nil => simp [runPresence, trailCount, initPresence]
  | append_singleton l c ih =>
    rcases ih with ⟨h1, h2⟩
    rw [runPresence_append, trailCount_append, trailCount_append]
    by_cases hc : 0 < c
    · simp [stepPresence, hc, h1]
    · simp [stepPresence, hc, h2]

/-- C1: the presence stabilizer starts ABSENT; over any confidence sequence
the stable state flips false→true only when the trailing run of frames with
confidence > 0 has length at least `flip_up = 2`, flips true→false only when
the trailing run of frames with confidence 0 has length at least
`flip_down = 5` (confidences are nonnegative), and the two counters are
mutually exclusive: a frame incrementing one resets the other to zero. -/
theorem presence_stabilizer_hysteresis :
    initPresence.state_face_detected = false ∧
    (∀ l c, (runPresence l).state_face_detected = false →
      (runPresence (l ++ [c])).state_face_detected = true →
      flip_up ≤ trailCount (fun x => decide (0 < x)) (l ++ [c])) ∧
    (∀ l c, (∀ x ∈ l ++ [c], (0:ℚ) ≤ x) →
      (runPresence l).state_face_detected = true →
      (runPresence (l ++ [c])).state_face_detected = false →
      flip_down ≤ trailCount (fun x => decide (x = 0)) (l ++ [c])) ∧
    (∀ s c, (0 < c → (stepPresence s c).with_face_frames = s.with_face_frames + 1 ∧
        (stepPresence s c).no_face_frames = 0) ∧
      (¬ 0 < c → (stepPresence s c).no_face_frames = s.no_face_frames + 1 ∧
        (stepPresence s c).with_face_frames = 0)) := by
  refine ⟨rfl, ?_, ?_, ?_⟩
  · intro l c h0 h1
    rw [runPresence_append] at h1
    by_cases hc : 0 < c
    · by_cases hw : flip_up ≤ (runPresence l).with_face_frames + 1
      · rw [trailCount_append, if_pos (by simp [hc])]
        rw [← (presence_counters l).1]
        omega
      · simp [stepPresence, hc, h0, hw] at h1
    · simp [stepPresence, hc, h0] at h1
  · intro l c hpos h0 h1
    rw [runPresence_append] at h1
    by_cases hc : 0 < c
    · simp [stepPresence, hc, h0] at h1
    · by_cases hn : flip_down ≤ (runPresence l).no_face_frames + 1
      · have hzero : ∀ x ∈ l ++ [c],
            (fun x => decide ((x:ℚ) = 0)) x = (fun x => !decide ((0:ℚ) < x)) x := by
          intro x hx
          have hge := hpos x hx
          rcases lt_or_eq_of_le hge with hlt | heq
          · simp [hlt, ne_of_gt hlt]
          · simp [← heq]
        rw [trailCount_congr (l ++ [c]) hzero, trailCount_append,
          if_pos (by simp [hc])]
        rw [← (presence_counters l).2]
        omega
      · simp [stepPresence, hc, h0, hn] at h1
  · intro s c
    constructor
    · intro hc; simp [stepPresence, hc]
    · intro hc; simp [stepPresence, hc]

/-- Witness for C1: the flip-up direction at the confidence sequence
`[0,0,1] ++ [1]`, the flip-down direction at `[1,1,0,0,0,0] ++ [0]`, and the
counter exclusivity at the initial state with confidence 1. -/
theorem presence_stabilizer_hysteresis_witness :
    ((runPresence [0, 0, 1]).state_face_detected = false ∧
      (runPresence ([0, 0, 1] ++ [1])).state_face_detected = true ∧
      flip_up ≤ trailCount (fun x => decide (0 < x)) ([0, 0, 1] ++ [1])) ∧
    ((∀ x ∈ ([1, 1, 0, 0, 0, 0] : List ℚ) ++ [0], (0:ℚ) ≤ x) ∧
      (runPresence [1, 1, 0, 0, 0, 0]).state_face_detected = true ∧
      (runPresence ([1, 1, 0, 0, 0, 0] ++ [0])).state_face_detected = false ∧
      flip_down ≤ trailCount (fun x => decide (x = 0)) ([1, 1, 0, 0, 0, 0] ++ [0])) ∧
    ((0:ℚ) < 1 ∧ (stepPresence initPresence 1).with_face_frames =
      initPresence.with_face_frames + 1 ∧ (stepPresence initPresence 1).no_face_frames = 0) :=
  ⟨⟨by decide, by decide,
      presence_stabilizer_hysteresis.2.1 [0, 0, 1] 1 (by decide) (by decide)⟩,
    ⟨by decide, by decide, by decide,
      presence_stabilizer_hysteresis.2.2.1 [1, 1, 0, 0, 0, 0] 0 (by decide) (by decide)
        (by decide)⟩,
    ⟨by decide,
      ((presence_stabilizer_hysteresis.2.2.2 initPresence 1).1 (by decide)).1,
      ((presence_stabilizer_hysteresis.2.2.2 initPresence 1).1 (by decide)).2⟩⟩

/-! ### Signal fusion: attention score and engagement level

Embeds the fusion computation in step 3 of `process_frame` (only executed on
frames with `confidence > 0.0`).
-/

/-- The attention score of step 3 of `process_frame`: starts at 0.0, adds 0.4
when `head_pose["looking_at_screen"]` holds, 0.3 when
`eye_track["eye_state"] == "open"`, and 0.3 when
`eye_track["eye_tracking"] == "looking_at_screen"`. -/
def attention_score (looking_at_screen : Bool) (eye_state eye_dir : String) : ℚ :=
  (if looking_at_screen then 0.4 else 0) +
  (if eye_state = "open" then 0.3 else 0) +
  (if eye_dir = "looking_at_screen" then 0.3 else 0)

/-- The engagement classification of step 3 of `process_frame`:
`"high" if (attention_score > 0.8 and confidence > 0.7) else "medium" if
(attention_score > 0.5 and confidence > 0.5) else "low"`. -/
def engagement_level (attention confidence : ℚ) : String :=
  if 0.8 < attention ∧ 0.7 < confidence then "high"
  else if 0.5 < attention ∧ 0.5 < confidence then "medium"
  else "low"

/-- C2: the attention score always lies in {0, 0.3, 0.4, 0.6, 0.7, 1}, and the
engagement level is "high" exactly when attention > 0.8 and confidence > 0.7,
"medium" exactly when that fails but attention > 0.5 and confidence > 0.5, and
"low" exactly otherwise. -/
theorem fusion_attention_engagement :
    (∀ (looking : Bool) (es ed : String),
      attention_score looking es ed ∈ ([0, 0.3, 0.4, 0.6, 0.7, 1] : List ℚ)) ∧
    (∀ a c : ℚ, engagement_level a c = "high" ↔ 0.8 < a ∧ 0.7 < c) ∧
    (∀ a c : ℚ, engagement_level a c = "medium" ↔
      ¬(0.8 < a ∧ 0.7 < c) ∧ (0.5 < a ∧ 0.5 < c)) ∧
    (∀ a c : ℚ, engagement_level a c = "low" ↔
      ¬(0.8 < a ∧ 0.7 < c) ∧ ¬(0.5 < a ∧ 0.5 < c)) := by
  refine ⟨?_, ?_, ?_, ?_⟩
  · intro looking es ed
    rcases looking with _ | _ <;>
      by_cases h1 : es = "open" <;>
      by_cases h2 : ed = "looking_at_screen" <;>
      simp [attention_score, h1, h2] <;> norm_num
  · intro a c
    by_cases h1 : (0.8:ℚ) < a ∧ 0.7 < c <;>
      by_cases h2 : (0.5:ℚ) < a ∧ 0.5 < c <;>
      simp [engagement_level, h1, h2]
  · intro a c
    by_cases h1 : (0.8:ℚ) < a ∧ 0.7 < c <;>
      by_cases h2 : (0.5:ℚ) < a ∧ 0.5 < c <;>
      simp [engagement_level, h1, h2]
  · intro a c
    by_cases h1 : (0.8:ℚ) < a ∧ 0.7 < c <;>
      by_cases h2 : (0.5:ℚ) < a ∧ 0.5 < c <;>
      simp [engagement_level, h1, h2]

/-! ### Eye-tracking analyzer: eye aspect ratio (EAR)

Embeds the `ear` helper of `EnhancedFaceDetector.analyze_eye_tracking` and its
classification thresholds.  The helper measures three euclidean distances on a
4-point eye contour `pts`:
`A = dist(pts[1], pts[3])` (labelled "vertical" in the code),
`B = dist(pts[0], pts[2])` (labelled "diagonal (approx)") and
`C = dist(pts[0], pts[2])` (labelled "horizontal") — `B` and `C` are measured
between the SAME point pair, so `B = C`.  The model works at the level of
these nonnegative measured distances.
-/

/-- The value `(A + B) / (2.0 * C) if C > 0 else 0.3` computed by the `ear`
helper; the `except` branch of the helper returns the same 0.3 default. -/
def earABC (A B C : ℚ) : ℚ := if 0 < C then (A + B) / (2 * C) else 0.3

/-- The ear value the code actually produces for a measured vertical distance
`A` and corner distance `C`: the second summand `B` is the same measured
distance as `C`. -/
def earMeasured (A C : ℚ) : ℚ := earABC A C C

/-- Average of the two per-eye EARs: `(left_ear + right_ear) / 2.0`. -/
def avgEar (l r : ℚ) : ℚ := (l + r) / 2

/-- The `eye_state` classification of `analyze_eye_tracking`:
closed below 0.2, blinking below 0.25, otherwise open. -/
def eyeStateOf (e : ℚ) : String :=
  if e < 0.2 then "closed" else if e < 0.25 then "blinking" else "open"

/-- Modelled from the spec words for comparison (4.3 of the spec): "vertical
eyelid separation over horizontal eye width, averaged across two measured
vertical distances": `(A1 + A2) / (2 * C)` for two vertical distances `A1`,
`A2` and width `C`. -/
def earSpecFormula (A1 A2 C : ℚ) : ℚ := (A1 + A2) / (2 * C)

/-- Counterexample to C5: for a fully closed eye (vertical separation 0) of
width 4, the code computes EAR 1/2 and classifies "open", while the claimed
formula (two vertical distances over the width) gives 0 and would classify
"closed". -/
theorem ear_formula_counterexample :
    earMeasured 0 4 = 1/2 ∧ earSpecFormula 0 0 4 = 0 ∧
    eyeStateOf (earMeasured 0 4) = "open" ∧
    eyeStateOf (earSpecFormula 0 0 4) = "closed" ∧
    earMeasured 0 4 ≠ earSpecFormula 0 0 4 := by
  norm_num [earMeasured, earABC, earSpecFormula, eyeStateOf]

/-- C5 (amended): the per-eye EAR is `(A + C)/(2C)` where `A` is the single
measured vertical eyelid separation and `C` the horizontal corner distance
(the second summand is the horizontal width itself, not a second vertical
distance), hence EAR `= 1/2 + A/(2C) ≥ 1/2` for valid geometry; the two eyes
are averaged and classified closed iff < 0.2, blinking iff < 0.25, else open
— so valid landmarks always classify as "open". -/
theorem ear_code_characterization :
    (∀ A C : ℚ, 0 < C → earMeasured A C = 1/2 + A / (2 * C)) ∧
    (∀ A C : ℚ, 0 ≤ A → 0 < C → 1/2 ≤ earMeasured A C) ∧
    (∀ lA lC rA rC : ℚ, 0 ≤ lA → 0 < lC → 0 ≤ rA → 0 < rC →
      eyeStateOf (avgEar (earMeasured lA lC) (earMeasured rA rC)) = "open") ∧
    (∀ e : ℚ, eyeStateOf e = "closed" ↔ e < 0.2) ∧
    (∀ e : ℚ, eyeStateOf e = "blinking" ↔ 0.2 ≤ e ∧ e < 0.25) ∧
    (∀ e : ℚ, eyeStateOf e = "open" ↔ 0.25 ≤ e) := by
  have hform : ∀ A C : ℚ, 0 < C → earMeasured A C = 1/2 + A / (2 * C) := by
    intro A C hC
    rw [earMeasured, earABC, if_pos hC]
    field_simp
    ring
  have hhalf : ∀ A C : ℚ, 0 ≤ A → 0 < C → 1/2 ≤ earMeasured A C := by
    intro A C hA hC
    rw [hform A C hC]
    have : 0 ≤ A / (2 * C) := div_nonneg hA (by linarith)
    linarith
  refine ⟨hform, hhalf, ?_, ?_, ?_, ?_⟩
  · intro lA lC rA rC hlA hlC hrA hrC
    have hl := hhalf lA lC hlA hlC
    have hr := hhalf rA rC hrA hrC
    have havg : (1:ℚ)/2 ≤ avgEar (earMeasured lA lC) (earMeasured rA rC) := by
      rw [avgEar]; linarith
    rw [eyeStateOf, if_neg (by norm_num at havg ⊢; linarith),
      if_neg (by norm_num at havg ⊢; linarith)]
  · intro e
    by_cases h1 : e < 0.2 <;> by_cases h2 : e < 0.25 <;>
      simp [eyeStateOf, h1, h2]
  · intro e
    by_cases h1 : e < 0.2 <;> by_cases h2 : e < 0.25 <;>
      simp [eyeStateOf, h1, h2] <;> linarith
  · intro e
    by_cases h1 : e < 0.2 <;> by_cases h2 : e < 0.25 <;>
      simp [eyeStateOf, h1, h2] <;> linarith

/-- Witness for C5 (amended) at vertical separation 1, width 2, and the
classification thresholds at EAR 0. -/
theorem ear_code_characterization_witness :
    ((0:ℚ) < 2 ∧ earMeasured 1 2 = 1/2 + 1 / (2 * 2)) ∧
    ((0:ℚ) ≤ 1 ∧ 1/2 ≤ earMeasured 1 2) ∧
    eyeStateOf (avgEar (earMeasured 1 2) (earMeasured 1 2)) = "open" :=
  ⟨⟨by decide, ear_code_characterization.1 1 2 (by decide)⟩,
    ⟨by decide, ear_code_characterization.2.1 1 2 (by decide) (by decide)⟩,
    ear_code_characterization.2.2.1 1 2 1 2 (by decide) (by decide) (by decide) (by decide)⟩

/-- C9: for a fixed horizontal width the EAR the code computes is monotone:
shrinking the vertical eyelid separation can only lower (or keep) the EAR. -/
theorem ear_monotone_in_separation (A A' C : ℚ) (h : A' ≤ A) :
    earMeasured A' C ≤ earMeasured A C := by
  unfold earMeasured earABC
  by_cases hC : 0 < C
  · rw [if_pos hC, if_pos hC]
    have h2C : (0:ℚ) < 2 * C := by linarith
    rw [div_le_div_iff_of_pos_right h2C]
    linarith
  · rw [if_neg hC, if_neg hC]

/-- Witness for C9 at separations 1 ≤ 2 and width 4. -/
theorem ear_monotone_in_separation_witness :
    (1:ℚ) ≤ 2 ∧ earMeasured 1 4 ≤ earMeasured 2 4 :=
  ⟨by decide, ear_monotone_in_separation 2 1 4 (by decide)⟩

/-- C10: with a degenerate (zero-width) eye contour, or in the helper's
exception branch, the `ear` helper returns the default 0.3 instead of
dividing by zero; two degenerate eyes average to 0.3, which classifies the
eye state as "open". -/
theorem ear_zero_width_default :
    (∀ A B : ℚ, earABC A B 0 = 0.3) ∧
    avgEar 0.3 0.3 = 0.3 ∧
    eyeStateOf (avgEar 0.3 0.3) = "open" := by
  refine ⟨?_, ?_, ?_⟩
  · intro A B; simp [earABC]
  · rw [avgEar]; norm_num
  · rw [avgEar]; norm_num [eyeStateOf]

/-! ### Detector adapter (step 1 of `process_frame`)

Embeds the detection step: `detect_faces_mediapipe` (primary) with fallback to
`detect_faces_opencv`, and the candidate selection
`max(face_dets, key=lambda d: d.score[0] if d.score else 0.0)`.
Neither `detect_faces_mediapipe` nor `detect_faces_opencv` nor the calling
code in `process_frame` contains a `try`/`except`, so detector exceptions are
modelled by `Except` values that the step passes through.
-/

/-- A face detection candidate: its native score list (`d.score`) and its
bounding-box area (present on the native detection, unused by the code). -/
structure FaceDet where
  score : List ℚ
  box_area : ℚ
deriving DecidableEq, Repr

/-- The key of the `max(...)` call: `d.score[0] if d.score else 0.0`. -/
def detKey (d : FaceDet) : ℚ := d.score.headD 0

/-- Python `max` over a nonempty list: scans left to right and replaces the
current best only when a later element has a STRICTLY larger key, so ties
keep the earlier element. -/
def pyMax : FaceDet → List FaceDet → FaceDet
  | m, [] => m
  | m, d :: ds => pyMax (if detKey m < detKey d then d else m) ds

/-- Modelled from the spec words for comparison (4.1 of the spec): highest
native confidence with ties broken by LARGER bounding-box area. -/
def specSelect : FaceDet → List FaceDet → FaceDet
  | m, [] => m
  | m, d :: ds =>
    specSelect
      (if detKey m < detKey d ∨ (detKey m = detKey d ∧ m.box_area < d.box_area) then d
       else m) ds

/-- Step 1 of `process_frame`: if the primary (MediaPipe) detector yields
candidates, pick `max(face_dets, key=...)` and use its native score as the
confidence; if it yields zero candidates, consult the OpenCV cascade fallback
and report the fixed synthetic confidence 0.6 when it finds any face, else
confidence 0.  Exceptions from either detector are not caught here. -/
def detectionStep (primary : Except String (List FaceDet))
    (fallback_count : Except String Nat) : Except String (ℚ × Option FaceDet) :=
  match primary with
  | .error e => .error e
  | .ok [] =>
    match fallback_count with
    | .error e => .error e
    | .ok n => .ok (if 0 < n then ((0.6 : ℚ), none) else (0, none))
  | .ok (d :: ds) => .ok (detKey (pyMax d ds), some (pyMax d ds))

theorem pyMax_mem (d : FaceDet) (ds : List FaceDet) :
    pyMax d ds = d ∨ pyMax d ds ∈ ds := by
  induction ds generalizing d with
  | nil => left; rfl
  | cons x xs ih =>
    rw [pyMax]
    by_cases hk : detKey d < detKey x
    · rw [if_pos hk]
      rcases ih x with h | h
      · right; rw [h]; exact List.mem_cons_self x xs
      · right; exact List.mem_cons_of_mem x h
    · rw [if_neg hk]
      rcases ih d with h | h
      · left; exact h
      · right; exact List.mem_cons_of_mem x h

theorem pyMax_ge (d : FaceDet) (ds : List FaceDet) :
    ∀ x ∈ d :: ds, detKey x ≤ detKey (pyMax d ds) := by
  induction ds generalizing d with
  | nil =>
    intro x hx
    rcases List.mem_cons.1 hx with rfl | hx'
    · exact le_refl _
    · simp at hx'
  | cons y ys ih =>
    intro x hx
    rw [pyMax]
    by_cases hk : detKey d < detKey y
    · rw [if_pos hk]
      rcases List.mem_cons.1 hx with rfl | hx'
      · exact le_trans hk.le (ih y y (List.mem_cons_self y ys))
      · exact ih y x hx'
    · rw [if_neg hk]
      rcases List.mem_cons.1 hx with rfl | hx'
      · exact ih x x (List.mem_cons_self x ys)
      · rcases List.mem_cons.1 hx' with rfl | hx''
        · exact le_trans (not_lt.1 hk) (ih d d (List.mem_cons_self d ys))
        · exact ih d x (List.mem_cons_of_mem d hx'')

/-- Counterexample to C6: two candidates tie on native confidence 0.5 with
areas 10 and 20; the code's `max` keeps the FIRST (smaller-area) candidate
while the claimed tie-break prefers the larger area; and an exception from
the primary detector propagates out of the detection step instead of being
converted to a no-detection result. -/
theorem detector_adapter_counterexample :
    detectionStep (.ok [{ score := [0.5], box_area := 10 },
        { score := [0.5], box_area := 20 }]) (.ok 0) =
      .ok (0.5, some { score := [0.5], box_area := 10 }) ∧
    specSelect { score := [0.5], box_area := 10 } [{ score := [0.5], box_area := 20 }] =
      { score := [0.5], box_area := 20 } ∧
    ({ score := [0.5], box_area := 10 } : FaceDet) ≠ { score := [0.5], box_area := 20 } ∧
    detectionStep (.error "detector raised") (.ok 1) = .error "detector raised" := by
  refine ⟨?_, ?_, ?_, ?_⟩
  · rw [detectionStep]
    norm_num [pyMax, detKey]
  · rw [specSelect, if_pos, specSelect]
    right
    norm_num [detKey]
  · intro h
    have := congrArg FaceDet.box_area h
    norm_num at this
  · rfl

/-- C6 (amended): the detection step tries the primary detector first and on
zero candidates falls back to the secondary detector with the fixed synthetic
confidence 0.6 (confidence 0 when the fallback also finds nothing); with
candidates present it selects one of them attaining the maximal native
confidence, ties broken by position in the list (the earlier candidate wins),
not by bounding-box area; and exceptions from either detector propagate out
of the detection step uncaught. -/
theorem detector_adapter_behavior :
    (∀ d ds, pyMax d ds = d ∨ pyMax d ds ∈ ds) ∧
    (∀ d ds, ∀ x ∈ d :: ds, detKey x ≤ detKey (pyMax d ds)) ∧
    (∀ a b, detKey b ≤ detKey a → pyMax a [b] = a) ∧
    (∀ n, 0 < n → detectionStep (.ok []) (.ok n) = .ok ((0.6 : ℚ), none)) ∧
    detectionStep (.ok []) (.ok 0) = .ok (0, none) ∧
    (∀ e fb, detectionStep (.error e) fb = .error e) ∧
    (∀ e, detectionStep (.ok []) (.error e) = .error e) ∧
    (∀ d ds fb, detectionStep (.ok (d :: ds)) fb =
      .ok (detKey (pyMax d ds), some (pyMax d ds))) := by
  refine ⟨pyMax_mem, pyMax_ge, ?_, ?_, ?_, ?_, ?_, ?_⟩
  · intro a b hb
    rw [pyMax, if_neg (not_lt.2 hb)]
    rfl
  · intro n hn
    rw [detectionStep, if_pos hn]
  · rfl
  · intro e fb; rfl
  · intro e; rfl
  · intro d ds fb; rfl

/-- Witness for C6 (amended): the fallback at one OpenCV face, the maximality
of the selected candidate among two concrete candidates, and tie-keeping for
equal keys. -/
theorem detector_adapter_behavior_witness :
    (0 < 1 ∧ detectionStep (.ok []) (.ok 1) = .ok ((0.6 : ℚ), none)) ∧
    (({ score := [2], box_area := 1 } : FaceDet) ∈
        ({ score := [1], box_area := 5 } : FaceDet) :: [{ score := [2], box_area := 1 }] ∧
      detKey { score := [2], box_area := 1 } ≤
        detKey (pyMax { score := [1], box_area := 5 } [{ score := [2], box_area := 1 }])) ∧
    (detKey ({ score := [3], box_area := 9 } : FaceDet) ≤
        detKey ({ score := [3], box_area := 1 } : FaceDet) ∧
      pyMax { score := [3], box_area := 1 } [{ score := [3], box_area := 9 }] =
        { score := [3], box_area := 1 }) :=
  ⟨⟨by decide, detector_adapter_behavior.2.2.2.1 1 (by decide)⟩,
    ⟨by decide,
      detector_adapter_behavior.2.1 { score := [1], box_area := 5 }
        [{ score := [2], box_area := 1 }] { score := [2], box_area := 1 } (by decide)⟩,
    ⟨by decide,
      detector_adapter_behavior.2.2.1 { score := [3], box_area := 1 }
        { score := [3], box_area := 9 } (by decide)⟩⟩

/-! ### Screen-switch inferencer (`detect_screen_sharing`)

Embeds `EnhancedFaceDetector.detect_screen_sharing`.  The dynamically created
attributes `looking_away_frames`, `eyes_away_frames`, `last_head_pose` and
`head_pose_change_time` are modelled as `Option` fields (`none` = the
attribute does not exist yet, i.e. `hasattr` is false).  The only use of the
face-center movement norm is the comparison with `face_movement_threshold * 2`,
embedded exactly as the equivalent comparison of squared euclidean distance
with the squared threshold.
-/

/-- Constant `self.face_movement_threshold = 50` (pixels). -/
def face_movement_threshold : ℚ := 50

/-- The session-scoped mutable attributes read and written by
`detect_screen_sharing`. -/
structure ScreenSwitchState where
  last_activity_time : ℚ
  last_face_position : Option (ℚ × ℚ)
  screen_switch_detected : Bool
  screen_switch_start_time : Option ℚ
  looking_away_frames : Option Nat
  eyes_away_frames : Option Nat
  last_head_pose : Option String
  head_pose_change_time : Option ℚ
deriving DecidableEq, Repr

/-- The fields of the `analysis` dict (and the optional `face_landmarks`
argument) that `detect_screen_sharing` reads: `analysis["face_detected"]`,
`head_pose["looking_at_screen"]`, `head_pose["head_pose"]`,
`eye_tracking["eye_tracking"]`, and the face center extracted from the
landmarks (`none` when no landmarks are passed). -/
structure SSInput where
  face_detected : Bool
  hp_looking : Bool
  hp_label : String
  eye_dir : String
  face_center : Option (ℚ × ℚ)
deriving DecidableEq, Repr

/-- The dict returned by `detect_screen_sharing`. -/
structure SSOutput where
  screen_sharing_detected : Bool
  time_since_last_activity : ℚ
  switching_reason : List String
  switch_duration : ℚ
deriving DecidableEq, Repr

/-- Activity update: when a face is detected and looking at the screen, reset
`last_activity_time` to now and clear the switch state. -/
def resetActivity (s : ScreenSwitchState) (now : ℚ) (inp : SSInput) : ScreenSwitchState :=
  if inp.face_detected = true ∧ inp.hp_looking = true then
    { s with
      last_activity_time := now
      screen_switch_detected := false
      screen_switch_start_time := none }
  else s

/-- Trigger 1: `time_since_last > 5.0 and not analysis.get("face_detected")`;
`time_since_last` is computed from the pre-reset `last_activity_time`. -/
def trig1 (s : ScreenSwitchState) (now : ℚ) (inp : SSInput) : Bool :=
  decide (5 < now - s.last_activity_time) && !inp.face_detected

/-- Trigger 2: with landmarks and a detected face, movement of the face
center since the previous frame exceeding `face_movement_threshold * 2`
(compared via squared distances, which is equivalent for nonnegative
thresholds). -/
def trig2 (s : ScreenSwitchState) (inp : SSInput) : Bool :=
  if inp.face_detected = true then
    match inp.face_center with
    | some c =>
      match s.last_face_position with
      | some p =>
        decide ((2 * face_movement_threshold) ^ 2 <
          (c.1 - p.1) ^ 2 + (c.2 - p.2) ^ 2)
      | none => false
    | none => false
  else false

/-- After the trigger-2 check the face center is stored in
`last_face_position` (only when landmarks and a detected face are present). -/
def updFacePos (s : ScreenSwitchState) (inp : SSInput) : ScreenSwitchState :=
  if inp.face_detected = true then
    match inp.face_center with
    | some c => { s with last_face_position := some c }
    | none => s
  else s

/-- Trigger 3: face detected but not looking at the screen; the incremented
`looking_away_frames` counter must exceed 30. -/
def trig3 (s : ScreenSwitchState) (inp : SSInput) : Bool :=
  if inp.hp_looking = false ∧ inp.face_detected = true then
    decide (30 < s.looking_away_frames.getD 0 + 1)
  else false

/-- Counter update for trigger 3: increment while looking away with a face,
otherwise reset to 0 when the attribute exists (it is never deleted). -/
def updLookAway (s : ScreenSwitchState) (inp : SSInput) : ScreenSwitchState :=
  if inp.hp_looking = false ∧ inp.face_detected = true then
    { s with looking_away_frames := some (s.looking_away_frames.getD 0 + 1) }
  else
    { s with looking_away_frames := s.looking_away_frames.map (fun _ => 0) }

/-- Trigger 4: eye tracking reports "looking_away" with a detected face; the
incremented `eyes_away_frames` counter must exceed 20. -/
def trig4 (s : ScreenSwitchState) (inp : SSInput) : Bool :=
  if inp.eye_dir = "looking_away" ∧ inp.face_detected = true then
    decide (20 < s.eyes_away_frames.getD 0 + 1)
  else false

/-- Counter update for trigger 4. -/
def updEyesAway (s : ScreenSwitchState) (inp : SSInput) : ScreenSwitchState :=
  if inp.eye_dir = "looking_away" ∧ inp.face_detected = true then
    { s with eyes_away_frames := some (s.eyes_away_frames.getD 0 + 1) }
  else
    { s with eyes_away_frames := s.eyes_away_frames.map (fun _ => 0) }

/-- Trigger 5: guarded by `hasattr(self, "last_head_pose")` and a truthy
head-pose label; fires when the label changed and the recorded change time is
more than 2.0 seconds old.  (`last_head_pose` is only ever assigned inside
this `hasattr` guard, so starting from a fresh session it is never set and
this trigger is unreachable; the model is nevertheless faithful to the
code.) -/
def trig5 (s : ScreenSwitchState) (now : ℚ) (inp : SSInput) : Bool :=
  match s.last_head_pose with
  | none => false
  | some prev =>
    if inp.hp_label ≠ "" then
      if prev ≠ inp.hp_label then
        match s.head_pose_change_time with
        | none => false
        | some t => decide (2 < now - t)
      else false
    else false

/-- State update of the trigger-5 block: on a changed label record the change
time (first change only) and the new label; on a stable label delete the
change time. -/
def updHeadPose (s : ScreenSwitchState) (now : ℚ) (inp : SSInput) : ScreenSwitchState :=
  match s.last_head_pose with
  | none => s
  | some prev =>
    if inp.hp_label ≠ "" then
      if prev ≠ inp.hp_label then
        { s with
          head_pose_change_time := some (s.head_pose_change_time.getD now)
          last_head_pose := some inp.hp_label }
      else
        { s with head_pose_change_time := none, last_head_pose := some inp.hp_label }
    else s

/-- Final switch-state tracking: record a rising edge (set the start time) or
a falling edge (clear it). -/
def trackSwitch (s : ScreenSwitchState) (now : ℚ) (sw : Bool) : ScreenSwitchState :=
  if sw = true ∧ s.screen_switch_detected = false then
    { s with screen_switch_detected := true, screen_switch_start_time := some now }
  else if sw = false ∧ s.screen_switch_detected = true then
    { s with screen_switch_detected := false, screen_switch_start_time := none }
  else s

/-- The reported `switch_duration`: `now - start` when a start time is stored
(a stored time of exactly 0.0 is falsy in Python and treated as unset). -/
def switchDuration (s : ScreenSwitchState) (now : ℚ) : ℚ :=
  match s.screen_switch_start_time with
  | some t => if t = 0 then 0 else now - t
  | none => 0

/-- The whole of `detect_screen_sharing`: computes `time_since_last` from the
pre-reset activity time, evaluates the five triggers on the pre-update state
(none of the per-trigger state writes feeds a later trigger's read in the
source), threads the per-trigger state writes in source order, and returns
the output dict together with the updated state. -/
def detect_screen_sharing (s : ScreenSwitchState) (now : ℚ) (inp : SSInput) :
    SSOutput × ScreenSwitchState :=
  let time_since_last := now - s.last_activity_time
  let t1 := trig1 s now inp
  let t2 := trig2 s inp
  let t3 := trig3 s inp
  let t4 := trig4 s inp
  let t5 := trig5 s now inp
  let screen_switching := t1 || t2 || t3 || t4 || t5
  let s1 := trackSwitch (updHeadPose (updEyesAway (updLookAway
    (updFacePos (resetActivity s now inp) inp) inp) inp) now inp) now screen_switching
  let reasons :=
    (if t1 = true then ["No face detected for extended period (likely tab switching)"]
      else []) ++
    (if t2 = true then ["Sudden large face movement (possible tab switching)"] else []) ++
    (if t3 = true then ["Sustained looking away (possible tab switching)"] else []) ++
    (if t4 = true then ["Sustained eye movement away (possible tab switching)"] else []) ++
    (if t5 = true then ["Sustained head pose change (possible tab switching)"] else [])
  ({ screen_sharing_detected := screen_switching,
     time_since_last_activity := time_since_last,
     switching_reason := reasons,
     switch_duration := switchDuration s1 now }, s1)

theorem updFacePos_activity (s : ScreenSwitchState) (inp : SSInput) :
    (updFacePos s inp).last_activity_time = s.last_activity_time := by
  rw [updFacePos]
  split
  · rcases inp.face_center with _ | c <;> rfl
  · rfl

theorem updLookAway_activity (s : ScreenSwitchState) (inp : SSInput) :
    (updLookAway s inp).last_activity_time = s.last_activity_time := by
  rw [updLookAway]; split <;> rfl

theorem updEyesAway_activity (s : ScreenSwitchState) (inp : SSInput) :
    (updEyesAway s inp).last_activity_time = s.last_activity_time := by
  rw [updEyesAway]; split <;> rfl

theorem updHeadPose_activity (s : ScreenSwitchState) (now : ℚ) (inp : SSInput) :
    (updHeadPose s now inp).last_activity_time = s.last_activity_time := by
  rw [updHeadPose]
  rcases s.last_head_pose with _ | prev
  · rfl
  · dsimp only
    split
    · split <;> rfl
    · rfl

theorem trackSwitch_activity (s : ScreenSwitchState) (now : ℚ) (sw : Bool) :
    (trackSwitch s now sw).last_activity_time = s.last_activity_time := by
  rw [trackSwitch]; split
  · rfl
  · split <;> rfl

theorem resetActivity_headpose (s : ScreenSwitchState) (now : ℚ) (inp : SSInput) :
    (resetActivity s now inp).last_head_pose = s.last_head_pose := by
  rw [resetActivity]; split <;> rfl

theorem updFacePos_headpose (s : ScreenSwitchState) (inp : SSInput) :
    (updFacePos s inp).last_head_pose = s.last_head_pose := by
  rw [updFacePos]
  split
  · rcases inp.face_center with _ | c <;> rfl
  · rfl

theorem updLookAway_headpose (s : ScreenSwitchState) (inp : SSInput) :
    (updLookAway s inp).last_head_pose = s.last_head_pose := by
  rw [updLookAway]; split <;> rfl

theorem updEyesAway_headpose (s : ScreenSwitchState) (inp : SSInput) :
    (updEyesAway s inp).last_head_pose = s.last_head_pose := by
  rw [updEyesAway]; split <;> rfl

theorem updHeadPose_none {s : ScreenSwitchState} (h : s.last_head_pose = none)
    (now : ℚ) (inp : SSInput) : updHeadPose s now inp = s := by
  rw [updHeadPose, h]

theorem trackSwitch_headpose (s : ScreenSwitchState) (now : ℚ) (sw : Bool) :
    (trackSwitch s now sw).last_head_pose = s.last_head_pose := by
  rw [trackSwitch]; split
  · rfl
  · split <;> rfl

/-- C8: while no stable presence is reported (and in any session-reachable
state, where `last_head_pose` was never created), `screen_sharing_detected`
is true exactly when `time_since_last_activity` exceeds 5.0 seconds;
`last_activity_time` is reset to now on every frame where presence and
looking-at-screen both hold; `time_since_last_activity` is reported in the
output regardless of trigger state; and `last_head_pose` indeed never comes
into existence. -/
theorem screen_switch_trigger1 :
    (∀ s now inp, inp.face_detected = false → s.last_head_pose = none →
      ((detect_screen_sharing s now inp).1.screen_sharing_detected = true ↔
        5 < now - s.last_activity_time)) ∧
    (∀ s now inp, inp.face_detected = true → inp.hp_looking = true →
      (detect_screen_sharing s now inp).2.last_activity_time = now) ∧
    (∀ s now inp,
      (detect_screen_sharing s now inp).1.time_since_last_activity =
        now - s.last_activity_time) ∧
    (∀ s now inp, s.last_head_pose = none →
      (detect_screen_sharing s now inp).2.last_head_pose = none) := by
  refine ⟨?_, ?_, ?_, ?_⟩
  · intro s now inp hface hlhp
    simp only [detect_screen_sharing, trig1, trig2, trig3, trig4, trig5, hface, hlhp,
      Bool.not_false, Bool.and_true, if_neg (by simp [hface] : ¬(inp.hp_looking = false ∧
        inp.face_detected = true)), if_neg (by simp [hface] : ¬(inp.eye_dir =
        "looking_away" ∧ inp.face_detected = true))]
    simp [hface]
  · intro s now inp hface hlook
    simp only [detect_screen_sharing]
    rw [trackSwitch_activity, updHeadPose_activity, updEyesAway_activity,
      updLookAway_activity, updFacePos_activity, resetActivity,
      if_pos ⟨hface, hlook⟩]
  · intro s now inp
    rfl
  · intro s now inp hlhp
    simp only [detect_screen_sharing]
    rw [trackSwitch_headpose,
      updHeadPose_none (by rw [updEyesAway_headpose, updLookAway_headpose,
        updFacePos_headpose, resetActivity_headpose]; exact hlhp),
      updEyesAway_headpose, updLookAway_headpose, updFacePos_headpose,
      resetActivity_headpose]
    exact hlhp

/-- A fresh session-scoped screen-switch state: activity clock at time 0,
nothing yet observed (the values set in `__init__`, with the dynamic
attributes absent). -/
def freshSS : ScreenSwitchState :=
  { last_activity_time := 0, last_face_position := none,
    screen_switch_detected := false, screen_switch_start_time := none,
    looking_away_frames := none, eyes_away_frames := none,
    last_head_pose := none, head_pose_change_time := none }

/-- The `analysis` fields passed to `detect_screen_sharing` from the
zero-confidence branch of `process_frame`: defaulted head-pose and eye
results, no landmarks. -/
def noFaceInput (stable : Bool) : SSInput :=
  { face_detected := stable, hp_looking := false, hp_label := "unknown",
    eye_dir := "unknown", face_center := none }

/-- Witness for C8: at 4.9 seconds of inactivity with no face the trigger is
still off, and a present-and-looking frame resets the activity clock. -/
theorem screen_switch_trigger1_witness :
    ((noFaceInput false).face_detected = false ∧ freshSS.last_head_pose = none ∧
      ((detect_screen_sharing freshSS (49/10) (noFaceInput false)).1.screen_sharing_detected
        = true ↔ 5 < (49/10 : ℚ) - freshSS.last_activity_time)) ∧
    (({ noFaceInput true with hp_looking := true } : SSInput).face_detected = true ∧
      ({ noFaceInput true with hp_looking := true } : SSInput).hp_looking = true ∧
      (detect_screen_sharing freshSS 7
        { noFaceInput true with hp_looking := true }).2.last_activity_time = 7) :=
  ⟨⟨rfl, rfl, screen_switch_trigger1.1 freshSS (49/10) (noFaceInput false) rfl rfl⟩,
    ⟨rfl, rfl, screen_switch_trigger1.2.1 freshSS 7
      { noFaceInput true with hp_looking := true } rfl rfl⟩⟩

/-! ### The zero-confidence branch of `process_frame`

Embeds the `else` branch of step 3 of `process_frame` (taken whenever the
per-frame detection confidence is 0): the analysis record is filled with
defaulted sub-results, the mobile-device heuristic, the suspicious-object
heuristic and the voice adapter are not called (`voice_analysis` keeps its
initial empty value), and `detect_screen_sharing` IS called with the
defaulted analysis (and no landmarks).
-/

/-- A defaulted heuristic sub-result (flag plus count), as written literally
in the zero-confidence branch for `multiple_faces`, `mobile_devices` and
`suspicious_objects`. -/
structure HeurResult where
  flag : Bool
  count : Nat
deriving DecidableEq, Repr

/-- The voice snapshot shape returned by `analyze_voice_patterns` (only used
here to record that the zero-confidence branch never produces one). -/
structure VoiceSnapshot where
  speaking : Bool
  confidence : ℚ
  nervousness : ℚ
  speech_patterns : List String
deriving DecidableEq, Repr

/-- The analysis record produced by the zero-confidence branch.
`voice_analysis = none` models the field keeping its initial empty-dict
value because `analyze_voice_patterns` is not called on this path. -/
structure ZeroConfAnalysis where
  face_detected : Bool
  face_count : Nat
  confidence : ℚ
  attention_score : ℚ
  engagement_level : String
  eye_state : String
  eye_dir : String
  hp_looking : Bool
  hp_label : String
  multiple_faces : HeurResult
  mobile_devices : HeurResult
  suspicious_objects : HeurResult
  voice_analysis : Option VoiceSnapshot
  screen_sharing : SSOutput
deriving DecidableEq, Repr

/-- `process_frame` on a frame whose computed detection confidence is 0:
step 2 updates the presence hysteresis with confidence 0, then the `else`
branch of step 3 builds the defaulted record and calls
`detect_screen_sharing` on it. -/
def processFrameZeroConf (ps : PresenceState) (ss : ScreenSwitchState) (now : ℚ) :
    ZeroConfAnalysis × PresenceState × ScreenSwitchState :=
  let ps1 := stepPresence ps 0
  let r := detect_screen_sharing ss now (noFaceInput ps1.state_face_detected)
  ({ face_detected := ps1.state_face_detected
     face_count := 0
     confidence := 0
     attention_score := 0
     engagement_level := "low"
     eye_state := "unknown"
     eye_dir := "unknown"
     hp_looking := false
     hp_label := "unknown"
     multiple_faces := { flag := false, count := 0 }
     mobile_devices := { flag := false, count := 0 }
     suspicious_objects := { flag := false, count := 0 }
     voice_analysis := none
     screen_sharing := r.1 }, ps1, r.2)

/-- Counterexample to C3: a zero-confidence frame at 10 seconds of inactivity
mutates the session's ScreenSwitchState — `screen_switch_detected` flips from
false to true because `detect_screen_sharing` IS invoked on this path. -/
theorem zero_conf_counterexample :
    freshSS.screen_switch_detected = false ∧
    (processFrameZeroConf initPresence freshSS 10).2.2.screen_switch_detected = true ∧
    (processFrameZeroConf initPresence freshSS 10).2.2 ≠ freshSS ∧
    (processFrameZeroConf initPresence freshSS 10).1.screen_sharing.screen_sharing_detected
      = true := by
  have h10 : ((5:ℚ) < 10 - 0) := by norm_num
  refine ⟨rfl, ?_, ?_, ?_⟩
  · norm_num [processFrameZeroConf, detect_screen_sharing, stepPresence, initPresence,
      trig1, trig2, trig3, trig4, trig5, resetActivity, updFacePos, updLookAway,
      updEyesAway, updHeadPose, trackSwitch, freshSS, noFaceInput]
  · intro h
    have := congrArg ScreenSwitchState.screen_switch_detected h
    rw [show freshSS.screen_switch_detected = false from rfl] at this
    norm_num [processFrameZeroConf, detect_screen_sharing, stepPresence, initPresence,
      trig1, trig2, trig3, trig4, trig5, resetActivity, updFacePos, updLookAway,
      updEyesAway, updHeadPose, trackSwitch, freshSS, noFaceInput] at this
  · norm_num [processFrameZeroConf, detect_screen_sharing, stepPresence, initPresence,
      trig1, trig2, trig3, trig4, trig5, resetActivity, updFacePos, updLookAway,
      updEyesAway, updHeadPose, trackSwitch, freshSS, noFaceInput]

/-- C3 (amended): a zero-confidence frame produces the all-"unknown"
sentinel record with attention 0 and engagement "low" without invoking the
mobile-device heuristic, the suspicious-object heuristic or the voice
adapter (those fields are the literal defaults and the voice field keeps its
initial empty value), but the screen-switch inferencer IS invoked with the
defaulted inputs, so the session's ScreenSwitchState evolves exactly by that
inferencer (in particular it is not necessarily unchanged) — although such a
frame can never reset `last_activity_time`. -/
theorem zero_conf_short_circuit (ps : PresenceState) (ss : ScreenSwitchState) (now : ℚ) :
    (processFrameZeroConf ps ss now).1.eye_state = "unknown" ∧
    (processFrameZeroConf ps ss now).1.eye_dir = "unknown" ∧
    (processFrameZeroConf ps ss now).1.hp_label = "unknown" ∧
    (processFrameZeroConf ps ss now).1.hp_looking = false ∧
    (processFrameZeroConf ps ss now).1.attention_score = 0 ∧
    (processFrameZeroConf ps ss now).1.engagement_level = "low" ∧
    (processFrameZeroConf ps ss now).1.confidence = 0 ∧
    (processFrameZeroConf ps ss now).1.mobile_devices = { flag := false, count := 0 } ∧
    (processFrameZeroConf ps ss now).1.suspicious_objects = { flag := false, count := 0 } ∧
    (processFrameZeroConf ps ss now).1.voice_analysis = none ∧
    (processFrameZeroConf ps ss now).2.2 =
      (detect_screen_sharing ss now
        (noFaceInput (stepPresence ps 0).state_face_detected)).2 ∧
    (processFrameZeroConf ps ss now).2.2.last_activity_time = ss.last_activity_time ∧
    (processFrameZeroConf ps ss now).1.screen_sharing.time_since_last_activity =
      now - ss.last_activity_time := by
  refine ⟨rfl, rfl, rfl, rfl, rfl, rfl, rfl, rfl, rfl, rfl, rfl, ?_, rfl⟩
  show (detect_screen_sharing ss now
    (noFaceInput (stepPresence ps 0).state_face_detected)).2.last_activity_time =
    ss.last_activity_time
  simp only [detect_screen_sharing]
  rw [trackSwitch_activity, updHeadPose_activity, updEyesAway_activity,
    updLookAway_activity, updFacePos_activity, resetActivity,
    if_neg (by simp [noFaceInput])]

/-! ### WebSocket per-frame error boundary

Embeds the `try`/`except` around per-frame processing inside
`websocket_endpoint`: each received video frame either yields a normal
analysis payload or, when any exception is raised while decoding or
processing it, the literal fallback analysis dict; the receive loop continues
with the next message either way.  JSON-like payloads are modelled as ordered
association lists of string keys.
-/

/-- A JSON-compatible value. -/
inductive JVal where
  | b (v : Bool)
  | num (v : ℚ)
  | str (v : String)
  | arr (vs : List JVal)
  | obj (fields : List (String × JVal))

/-- The initial `analysis` dict built at the top of `process_frame` (its key
set is the full per-frame record shape; nested dicts start empty). -/
def initialAnalysis : List (String × JVal) :=
  [("face_detected", .b false), ("face_count", .num 0), ("confidence", .num 0),
   ("attention_score", .num 0), ("engagement_level", .str "low"),
   ("eye_tracking", .obj []), ("head_pose", .obj []), ("multiple_faces", .obj []),
   ("screen_sharing", .obj []), ("voice_analysis", .obj []),
   ("mobile_devices", .obj []), ("suspicious_objects", .obj []),
   ("suspicious_behavior", .arr []), ("recommendations", .arr [])]

/-- The literal fallback `analysis` dict sent by `websocket_endpoint` when an
exception is raised while processing an incoming frame (`e` is `str(e)`). -/
def errorAnalysis (e : String) : List (String × JVal) :=
  [("face_detected", .b false), ("face_count", .num 0), ("confidence", .num 0),
   ("attention_score", .num 0), ("engagement_level", .str "low"),
   ("eye_tracking", .obj [("eye_state", .str "unknown"), ("eye_tracking", .str "unknown")]),
   ("head_pose", .obj [("looking_at_screen", .b false), ("head_pose", .str "unknown")]),
   ("multiple_faces", .obj [("face_count", .num 0), ("multiple_faces_detected", .b false)]),
   ("screen_sharing", .obj [("screen_sharing_detected", .b false),
     ("time_since_last_activity", .num 0)]),
   ("voice_analysis", .obj [("speaking", .b false), ("confidence", .num 0),
     ("nervousness", .num 0), ("speech_patterns", .arr [])]),
   ("suspicious_behavior", .arr [.str "Frame processing error"]),
   ("recommendations", .arr [.str "Please check camera connection"]),
   ("error", .str e)]

/-- The per-session receive loop, one output payload per incoming frame: a
frame's processing outcome (`ok` with its analysis, or `error` with the
exception text) is converted to the payload actually sent; an exception never
ends the loop. -/
def sessionOutputs (frames : List (Except String (List (String × JVal)))) :
    List (List (String × JVal)) :=
  frames.map fun r =>
    match r with
    | .ok a => a
    | .error e => errorAnalysis e

/-- Counterexample to C7: the fallback record is NOT fully populated — the
`mobile_devices` and `suspicious_objects` fields of the normal analysis
record are absent from it. -/
theorem error_record_counterexample :
    "mobile_devices" ∈ initialAnalysis.map Prod.fst ∧
    "suspicious_objects" ∈ initialAnalysis.map Prod.fst ∧
    "mobile_devices" ∉ (errorAnalysis "x").map Prod.fst ∧
    "suspicious_objects" ∉ (errorAnalysis "x").map Prod.fst := by
  refine ⟨?_, ?_, ?_, ?_⟩ <;> simp [initialAnalysis, errorAnalysis]

/-- C7 (amended): an exception during per-frame processing is converted at
the websocket boundary into the fallback analysis payload, which carries
every field of the normal record EXCEPT `mobile_devices` and
`suspicious_objects` at safe defaults, with
`suspicious_behavior = ["Frame processing error"]`,
`recommendations = ["Please check camera connection"]` and the exception text
in an `error` field; the session keeps producing one payload per frame, with
frames after the failing one unaffected. -/
theorem error_boundary_record :
    (∀ e, (errorAnalysis e).map Prod.fst =
      ["face_detected", "face_count", "confidence", "attention_score",
       "engagement_level", "eye_tracking", "head_pose", "multiple_faces",
       "screen_sharing", "voice_analysis", "suspicious_behavior",
       "recommendations", "error"]) ∧
    (∀ e, (errorAnalysis e).lookup "suspicious_behavior" =
      some (.arr [.str "Frame processing error"])) ∧
    (∀ e, (errorAnalysis e).lookup "recommendations" =
      some (.arr [.str "Please check camera connection"])) ∧
    (∀ e, (errorAnalysis e).lookup "error" = some (.str e)) ∧
    (∀ e, (errorAnalysis e).lookup "face_detected" = some (.b false)) ∧
    (∀ e, (errorAnalysis e).lookup "confidence" = some (.num 0)) ∧
    (∀ e, (errorAnalysis e).lookup "attention_score" = some (.num 0)) ∧
    (∀ e, (errorAnalysis e).lookup "engagement_level" = some (.str "low")) ∧
    (∀ xs e ys, sessionOutputs (xs ++ .error e :: ys) =
      sessionOutputs xs ++ errorAnalysis e :: sessionOutputs ys) ∧
    (∀ frames, (sessionOutputs frames).length = frames.length) := by
  refine ⟨fun e => rfl, fun e => rfl, fun e => rfl, fun e => rfl, fun e => rfl,
    fun e => rfl, fun e => rfl, fun e => rfl, ?_, ?_⟩
  · intro xs e ys
    simp [sessionOutputs]
  · intro frames
    simp [sessionOutputs]

/-! ### Session orchestration: the module-level shared detector

`face_detection.py` creates ONE module-level instance
`enhanced_face_detector = EnhancedFaceDetector()`, and `websocket_endpoint`
calls `enhanced_face_detector.process_frame(frame)` for EVERY connected
client, so all sessions read and mutate the same hysteresis counters and
screen-switch timers.  The model runs a sequence of `(client_id, confidence)`
frame events against the single shared `PresenceState` and records, per
event, the `face_detected` value reported to that client.
-/

/-- The server as written: every client's frame steps the one shared
presence state of the module-level detector instance. -/
def sharedServerRun (events : List (String × ℚ)) :
    PresenceState × List (String × Bool) :=
  events.foldl
    (fun acc ev =>
      let s := stepPresence acc.1 ev.2
      (s, acc.2 ++ [(ev.1, s.state_face_detected)]))
    (initPresence, [])

/-- C4 (code bug): with clients "A" and "B" each sending a single confident
frame (interleaved A then B) against a fresh server, client B is reported
stable presence `true` on its very first frame, because A's frame already
advanced the shared module-level counter past `flip_up`; a session-private
stabilizer fed only B's one frame reports `false` (one frame is fewer than
`flip_up = 2`). -/
theorem shared_detector_cross_session_interference :
    (sharedServerRun [("A", 1), ("B", 1)]).2 = [("A", false), ("B", true)] ∧
    (runPresence [1]).state_face_detected = false ∧
    1 < flip_up := by
  refine ⟨?_, by decide, by decide⟩
  simp [sharedServerRun, stepPresence, initPresence, flip_up]

end FaceMonitor
